import Mathlib

/-!
Shallow embedding of the lookingglass master runtime (Go sources):
IP masking (master/ws/iputils.go and the ws client file),
agent manager (master/agent/stream_registry.go),
task scheduler (master/task/scheduler.go),
stream handler cleanup (master/server/stream_handler.go) and the
WebSocket server (ws package).

Go maps are modelled as association lists, Go `int`/`int32` as `Int`
(the counters in the source can in principle go negative, so `Nat` would
be unfaithful), Go time stamps as `Nat` ticks, and the Go closures stored
in `outputHandlers` as the set of task ids a handler is registered under,
together with an explicit trace of the `TaskOutput` frames handed to the
handler registered under the task id of the frame.

The Go string functions (`strings.Contains`, `strings.Split`,
`strings.HasPrefix`, ...) are mirrored by structurally recursive
functions on `List Char`, with `String` kept at the boundary, so that
every definition evaluates inside the kernel.
-/

namespace LookingGlass

/-! ## Go string primitives -/

/-- Substring search on character lists: does `sub` occur contiguously? -/
def goContainsList (sub : List Char) : List Char → Bool
  | [] => sub.isEmpty
  | c :: rest => sub.isPrefixOf (c :: rest) || goContainsList sub rest

/-- Go `strings.Contains s sub`. -/
def goContains (s sub : String) : Bool :=
  goContainsList sub.toList s.toList

/-- Go `strings.HasPrefix s pre`. -/
def hasPrefixGo (s pre : String) : Bool :=
  pre.toList.isPrefixOf s.toList

/-- Go `strings.HasSuffix s suf`. -/
def hasSuffixGo (s suf : String) : Bool :=
  suf.toList.reverse.isPrefixOf s.toList.reverse

/-- Core loop of Go `strings.Split` for a non-empty separator: scan left to
right, breaking at each non-overlapping occurrence of `sep`.  The fuel
argument starts at the length of the scanned list, which bounds the number
of steps because every step consumes at least one character. -/
def goSplitAux (sep : List Char) : Nat → List Char → List Char → List (List Char)
  | _, [], acc => [acc.reverse]
  | 0, s, acc => [acc.reverse ++ s]
  | fuel + 1, c :: rest, acc =>
    if sep.isPrefixOf (c :: rest) then
      acc.reverse :: goSplitAux sep fuel (List.drop (sep.length - 1) rest) []
    else
      goSplitAux sep fuel rest (c :: acc)

/-- Go `strings.Split s sep` (used in the source only with the non-empty
separators `"."`, `":"` and `"::"`). -/
def goSplit (s sep : String) : List String :=
  (goSplitAux sep.toList s.toList.length s.toList []).map String.mk

/-- Go `strings.Join parts sep`. -/
def goJoinList (sep : List Char) : List (List Char) → List Char
  | [] => []
  | [x] => x
  | x :: xs => x ++ sep ++ goJoinList sep xs

/-- Go `strings.Join parts sep`, on strings. -/
def goJoin (parts : List String) (sep : String) : String :=
  String.mk (goJoinList sep.toList (parts.map String.toList))

/-! ## IP masking (master/ws/iputils.go, ws client file) -/

/-- Go `padHex` (iputils.go): prepend `"0"` until the length is at least 4.
The Go loop runs at most four times (each pass grows the string by one
character), so it is rendered with fuel 4. -/
def padHexAux : Nat → List Char → List Char
  | 0, s => s
  | fuel + 1, s => if s.length < 4 then padHexAux fuel ('0' :: s) else s

/-- Go `padHex` (iputils.go). -/
def padHex (s : String) : String := String.mk (padHexAux 4 s.toList)

/-- Go `expandIPv6` (iputils.go): expand `::` notation to the full
eight-group form, padding every group to four characters; returns `""`
for inputs the function rejects. -/
def expandIPv6 (ip : String) : String :=
  if ip == "" then ""
  else
    let ip1 := if hasPrefixGo ip "::" then "0" ++ ip else ip
    let ip2 := if hasSuffixGo ip1 "::" then ip1 ++ "0" else ip1
    if !(goContains ip2 "::") then
      let parts := goSplit ip2 ":"
      if parts.length != 8 then ""
      else if parts.any (fun part => part.length == 0 || part.length > 4) then ""
      else goJoin (parts.map padHex) ":"
    else
      match goSplit ip2 "::" with
      | [left, right] =>
        let leftParts := if left != "" then goSplit left ":" else []
        let rightParts := if right != "" then goSplit right ":" else []
        let missingCount : Int := 8 - leftParts.length - rightParts.length
        if missingCount < 1 then ""
        else if (leftParts ++ rightParts).any
            (fun part => part.length == 0 || part.length > 4) then ""
        else
          goJoin
            (leftParts.map padHex ++
             List.replicate missingCount.toNat "0000" ++
             rightParts.map padHex) ":"
      | _ => ""

/-- Go `maskIPv6Address` (iputils.go): keep the first and last group of the
expanded address and replace the middle six groups by `"****"`. -/
def maskIPv6Address (ip : String) : String :=
  if ip == "" then ip
  else
    let expandedIP := expandIPv6 ip
    if expandedIP == "" then ip
    else
      let parts := goSplit expandedIP ":"
      if parts.length != 8 then ip
      else
        let masked :=
          (((((parts.set 1 "****").set 2 "****").set 3 "****").set 4
            "****").set 5 "****").set 6 "****"
        goJoin masked ":"

/-- Go `maskIP` (ws client file): verbatim when `shouldMask` is false or
the address is empty; IPv6 handling when a colon is present; otherwise
mask the last two octets of an address that splits into exactly four
dot-separated parts. -/
def maskIP (ip : String) (shouldMask : Bool) : String :=
  if !shouldMask || ip == "" then ip
  else if goContains ip ":" then maskIPv6Address ip
  else
    match goSplit ip "." with
    | [a, b, _, _] => a ++ "." ++ b ++ ".*.*"
    | _ => ip

/-! ## Protocol data (generated pb package) -/

/-- pb.TaskStatus. -/
inductive TaskStatus
  | unspecified
  | pending
  | running
  | completed
  | failed
  | cancelled
deriving DecidableEq, Repr

/-- pb.AgentStatus. -/
inductive AgentStatus
  | unspecified
  | online
  | offline
deriving DecidableEq, Repr

/-- pb.TaskOutput (timestamp omitted: it is never read by the master). -/
structure TaskOutput where
  taskId : String
  outputLine : String
  errorMessage : String
  status : TaskStatus
deriving DecidableEq, Repr

/-- pb.AgentInfo, restricted to the fields the modelled code reads. -/
structure AgentInfo where
  id : String
  maxConcurrent : Int
  ipv4 : String
  ipv6 : String
  hideIp : Bool
deriving DecidableEq, Repr

/-- pb.Task, restricted to the fields the modelled code reads. -/
structure Task where
  taskId : String
  agentId : String
  taskName : String
deriving DecidableEq, Repr

/-! ## Association-list rendering of Go maps -/

/-- Lookup in a Go map rendered as an association list. -/
def assocGet {α : Type} (m : List (String × α)) (k : String) : Option α :=
  match m with
  | [] => none
  | (k1, v) :: rest => if k1 = k then some v else assocGet rest k

/-- Go `m[k] = v`: replace the binding if present, append otherwise. -/
def assocSet {α : Type} (m : List (String × α)) (k : String) (v : α) :
    List (String × α) :=
  match m with
  | [] => [(k, v)]
  | (k1, v1) :: rest =>
    if k1 = k then (k, v) :: rest else (k1, v1) :: assocSet rest k v

/-- Go `delete(m, k)`. -/
def assocErase {α : Type} (m : List (String × α)) (k : String) :
    List (String × α) :=
  m.filter (fun p => p.1 ≠ k)

/-! ## Agent manager (master/agent/stream_registry.go) -/

/-- `agent.Agent`: the mutable state of a registered agent (the deprecated gRPC
connection fields are not modelled; `lastHeartbeat` is a tick count). -/
structure Agent where
  info : AgentInfo
  status : AgentStatus
  lastHeartbeat : Nat
  currentTasks : Int
  useStream : Bool
deriving DecidableEq, Repr

/-- The `agents` map of the manager. -/
abbrev AgentMap := List (String × Agent)

/-- Errors the modelled Go functions return via `fmt.Errorf`; one
constructor per distinct format string. -/
inductive GoError
  | systemBusy (current max : Int)
  | agentNotFound (id : String)
  | agentOffline (id : String)
  | agentBusy (current max : Int)
  | taskNotFound (id : String)
deriving DecidableEq, Repr

/-- `Manager.GetAgent`. -/
def getAgent (agents : AgentMap) (agentID : String) : Except GoError Agent :=
  match assocGet agents agentID with
  | none => .error (.agentNotFound agentID)
  | some a => .ok a

/-- `Manager.UpdateHeartbeat`: refresh the heartbeat time stamp and the
reported task count, and set the status to online. -/
def updateHeartbeat (agents : AgentMap) (agentID : String) (now : Nat)
    (currentTasks : Int) : Except GoError AgentMap :=
  match assocGet agents agentID with
  | none => .error (.agentNotFound agentID)
  | some a =>
    .ok (assocSet agents agentID
      { a with lastHeartbeat := now, currentTasks := currentTasks,
               status := .online })

/-- `Manager.MarkAgentOffline`: flip an online agent to offline; the `Bool`
records whether a status transition happened (and hence whether the
status-change callbacks were notified).  The only callback registered in
master/main.go broadcasts the agent list to WebSocket clients; it touches
no scheduler state, so it contributes nothing further to the model. -/
def markAgentOffline (agents : AgentMap) (agentID : String) :
    AgentMap × Bool :=
  match assocGet agents agentID with
  | none => (agents, false)
  | some a =>
    if a.status = .online then
      (assocSet agents agentID { a with status := .offline }, true)
    else
      (agents, false)

/-- `Manager.IncrementTaskCount`. -/
def incrementTaskCount (agents : AgentMap) (agentID : String) :
    Except GoError AgentMap :=
  match assocGet agents agentID with
  | none => .error (.agentNotFound agentID)
  | some a =>
    .ok (assocSet agents agentID { a with currentTasks := a.currentTasks + 1 })

/-- `Manager.DecrementTaskCount`: guarded so the per-agent count never goes
below zero. -/
def decrementTaskCount (agents : AgentMap) (agentID : String) :
    Except GoError AgentMap :=
  match assocGet agents agentID with
  | none => .error (.agentNotFound agentID)
  | some a =>
    .ok (assocSet agents agentID
      { a with currentTasks :=
          if a.currentTasks > 0 then a.currentTasks - 1 else a.currentTasks })

/-! ## Task scheduler (master/task/scheduler.go) -/

/-- `task.TaskInfo` (`CreatedAt` and the `context.CancelFunc` are omitted:
neither is observable in the modelled behaviour — the cancel function only
cancels the Go context passed to the legacy execution path). -/
structure TaskInfo where
  task : Task
  agentId : String
  status : TaskStatus
  clientId : String
deriving DecidableEq, Repr

/-- `task.Scheduler` state.  `outputHandlers` keeps the task ids a handler
closure is registered under; the frames passed to those closures are
returned by each operation as an explicit trace. -/
structure SchedulerState where
  globalMaxTasks : Int
  currentTasks : Int
  tasks : List (String × TaskInfo)
  outputHandlers : List String
  agents : AgentMap
deriving DecidableEq, Repr

/-- `NewScheduler` (the map of the agent manager is passed in as `agents`). -/
def newScheduler (agents : AgentMap) (globalMaxTasks : Int) : SchedulerState :=
  { globalMaxTasks := globalMaxTasks
    currentTasks := 0
    tasks := []
    outputHandlers := []
    agents := agents }

/-- `Scheduler.SubmitTask` (admission and bookkeeping; the asynchronous
`executeTask` goroutine is modelled separately by `updateTaskStatus`).
An error return leaves the state unchanged, matching the Go code, which
either returns before mutating or rolls the counter increment back. -/
def submitTask (s : SchedulerState) (task : Task) (clientID : String) :
    Except GoError SchedulerState :=
  if s.currentTasks ≥ s.globalMaxTasks then
    .error (.systemBusy s.currentTasks s.globalMaxTasks)
  else
    match getAgent s.agents task.agentId with
    | .error e => .error e
    | .ok agent =>
      if agent.status ≠ .online then .error (.agentOffline task.agentId)
      else if agent.currentTasks ≥ agent.info.maxConcurrent then
        .error (.agentBusy agent.currentTasks agent.info.maxConcurrent)
      else
        match incrementTaskCount s.agents task.agentId with
        | .error e => .error e
        | .ok agents1 =>
          let taskInfo : TaskInfo :=
            { task := task, agentId := task.agentId, status := .pending,
              clientId := clientID }
          .ok { s with
                currentTasks := s.currentTasks + 1
                agents := agents1
                tasks := assocSet s.tasks task.taskId taskInfo
                outputHandlers :=
                  if s.outputHandlers.contains task.taskId then
                    s.outputHandlers
                  else s.outputHandlers ++ [task.taskId] }

/-- `Scheduler.updateTaskStatus`. -/
def updateTaskStatus (s : SchedulerState) (taskID : String)
    (status : TaskStatus) : SchedulerState :=
  match assocGet s.tasks taskID with
  | none => s
  | some taskInfo =>
    { s with tasks := assocSet s.tasks taskID { taskInfo with status := status } }

/-- `Scheduler.filterOutput`: `true` means the output is dropped. -/
def filterOutput (output : Option TaskOutput) : Bool :=
  match output with
  | none => true
  | some o =>
    goContains o.outputLine "MapTrace URL" ||
    goContains o.outputLine "NextTrace" ||
    goContains o.outputLine "IP Geo Data Provider"

/-- `Scheduler.forwardOutput`: the frame reaches the handler registered
under its task id, if any. -/
def forwardOutput (s : SchedulerState) (output : TaskOutput) :
    List TaskOutput :=
  if s.outputHandlers.contains output.taskId then [output] else []

/-- `Scheduler.completeTask`: record the terminal status, decrement the
global and per-agent counters, hand a synthetic terminal frame to the
handler for completed/cancelled statuses, then delete the handler.  The
task record itself is *not* deleted from `tasks` — the Go code has no
`delete(s.tasks, taskID)`. -/
def completeTask (s : SchedulerState) (taskID : String)
    (status : TaskStatus) : SchedulerState × List TaskOutput :=
  match assocGet s.tasks taskID with
  | none => (s, [])
  | some taskInfo =>
    let s1 := { s with
                tasks := assocSet s.tasks taskID { taskInfo with status := status }
                currentTasks := s.currentTasks - 1 }
    let agents1 :=
      match decrementTaskCount s1.agents taskInfo.agentId with
      | .ok m => m
      | .error _ => s1.agents
    let s2 := { s1 with agents := agents1 }
    let frames :=
      if s2.outputHandlers.contains taskID &&
          (status = TaskStatus.completed || status = TaskStatus.cancelled) then
        [{ taskId := taskID, outputLine := "", errorMessage := "",
           status := status : TaskOutput }]
      else []
    ({ s2 with outputHandlers := s2.outputHandlers.filter (· ≠ taskID) }, frames)

/-- `Scheduler.HandleTaskOutput` (stream path): filter, forward, then run
the terminal path when the frame carries a terminal status. -/
def handleTaskOutput (s : SchedulerState) (output : Option TaskOutput) :
    SchedulerState × List TaskOutput :=
  match output with
  | none => (s, [])
  | some o =>
    let fwd := if !(filterOutput (some o)) then forwardOutput s o else []
    let next :=
      if o.status = TaskStatus.completed then
        completeTask s o.taskId .completed
      else if o.status = TaskStatus.failed then
        completeTask s o.taskId .failed
      else if o.status = TaskStatus.cancelled then
        completeTask s o.taskId .cancelled
      else (s, [])
    (next.1, fwd ++ next.2)

/-- `Scheduler.CancelTask`: not-found error when the task id has no record;
otherwise fire the cancel handle, best-effort notify the agent (neither
touches scheduler state) and complete locally with status cancelled. -/
def cancelTask (s : SchedulerState) (taskID : String) :
    Except GoError (SchedulerState × List TaskOutput) :=
  match assocGet s.tasks taskID with
  | none => .error (.taskNotFound taskID)
  | some _ => .ok (completeTask s taskID .cancelled)

/-! ## Operation sequences over the scheduler -/

/-- The scheduler entry points a client session and the agent stream drive. -/
inductive SchedOp
  | submit (task : Task) (clientID : String)
  | cancel (taskID : String)
  | deliver (output : Option TaskOutput)

/-- Apply one operation; failed submissions and cancels leave the state as
the Go methods do. -/
def applyOp (s : SchedulerState) (op : SchedOp) : SchedulerState :=
  match op with
  | .submit task clientID =>
    match submitTask s task clientID with
    | .ok s1 => s1
    | .error _ => s
  | .cancel taskID =>
    match cancelTask s taskID with
    | .ok r => r.1
    | .error _ => s
  | .deliver output => (handleTaskOutput s output).1

/-- Run a sequence of operations. -/
def run (s : SchedulerState) (ops : List SchedOp) : SchedulerState :=
  ops.foldl applyOp s

/-! ## Stream handler cleanup (master/server/stream_handler.go) -/

/-- Master-side state reachable from the deferred cleanup of an agent
stream: the keys of the stream registry map `agentStreams` plus the
scheduler (which embeds the agent manager map). -/
structure MasterState where
  agentStreams : List String
  sched : SchedulerState
deriving DecidableEq, Repr

/-- `StreamRegistry.UnregisterAgentStream`. -/
def unregisterAgentStream (streams : List String) (agentID : String) :
    List String :=
  streams.filter (· ≠ agentID)

/-- The deferred cleanup in `StreamHandler.AgentStream`, run when an agent
stream closes: if the stream had registered an agent, unregister the
stream and mark the agent offline.  These are the only calls the defer
block makes; no scheduler task state is touched. -/
def agentStreamCleanup (m : MasterState) (agentID : String)
    (registered : Bool) : MasterState :=
  if registered && agentID ≠ "" then
    { agentStreams := unregisterAgentStream m.agentStreams agentID
      sched := { m.sched with
                 agents := (markAgentOffline m.sched.agents agentID).1 } }
  else m

/-! ## WebSocket server (ws package) -/

/-- `ws.Server`: the registered client ids plus the scheduler it submits
to. -/
structure WSServer where
  clients : List String
  sched : SchedulerState
deriving DecidableEq, Repr

/-- `Server.UnregisterClient`, called from the deferred block of
`Client.ReadMessages` when a client connection ends: the entire body is
`delete(s.clients, clientID)` plus a log line. -/
def unregisterClient (s : WSServer) (clientID : String) : WSServer :=
  { s with clients := s.clients.filter (· ≠ clientID) }

/-! ## Spec-side predicates (from the wording of the claims, for comparison) -/

/-- Hex digit in the usual sense (0-9, a-f, A-F). -/
def isHexDigitChar (c : Char) : Bool :=
  c.isDigit ||
  (decide (97 ≤ c.toNat) && decide (c.toNat ≤ 102)) ||
  (decide (65 ≤ c.toNat) && decide (c.toNat ≤ 70))

/-- Spec-side, from the wording of claim C10: a dotted-quad IPv4, read as
"exactly four dot-separated parts". -/
def specFourDotParts (s : String) : Bool :=
  (goSplit s ".").length == 4

/-- Spec-side, from the wording of claim C10: an IPv6 string expandable to
exactly eight colon-separated hex groups of 1-4 digits — the expansion in
the code succeeds and every colon-separated group of the original string
consists of hex digits only. -/
def specIPv6HexExpandable (s : String) : Bool :=
  expandIPv6 s != "" && (goSplit s ":").all (fun g => g.toList.all isHexDigitChar)

/-! ## Concrete fixtures used by the counterexamples and bug witnesses -/

/-- An online agent `A` with capacity 5 and no running task. -/
def demoAgent : Agent :=
  { info := { id := "A", maxConcurrent := 5, ipv4 := "", ipv6 := "",
              hideIp := false }
    status := .online
    lastHeartbeat := 0
    currentTasks := 0
    useStream := true }

/-- The same agent currently offline. -/
def demoOfflineAgent : Agent := { demoAgent with status := .offline }

/-- A task `T1` aimed at agent `A`. -/
def demoTask : Task := { taskId := "T1", agentId := "A", taskName := "ping" }

/-- A fresh scheduler over agent `A` with global ceiling 10. -/
def demoInit : SchedulerState := newScheduler [("A", demoAgent)] 10

/-- The scheduler after client `C` submitted `T1` and the `executeTask`
goroutine moved it to running. -/
def demoInFlight : SchedulerState :=
  updateTaskStatus (run demoInit [.submit demoTask "C"]) "T1" .running

/-- The terminal frame agent `A` sends for `T1` on success. -/
def demoCompletedFrame : TaskOutput :=
  { taskId := "T1", outputLine := "", errorMessage := "", status := .completed }

/-- Spec-side, from the wording of claim C9: a line is denylisted when it
contains one of the three scrubbed substrings. -/
def specDenylisted (line : String) : Bool :=
  goContains line "MapTrace URL" || goContains line "NextTrace" ||
  goContains line "IP Geo Data Provider"

/-- Did `CancelTask` return without error? -/
def cancelSucceeded (r : Except GoError (SchedulerState × List TaskOutput)) :
    Bool :=
  match r with
  | .ok _ => true
  | .error _ => false

/-- The global in-flight counter of the state a successful `CancelTask`
returns. -/
def cancelledCurrentTasks
    (r : Except GoError (SchedulerState × List TaskOutput)) : Option Int :=
  match r with
  | .ok p => some p.1.currentTasks
  | .error _ => none

/-- The scheduler after `T1` was submitted and then cancelled once. -/
def demoAfterCancel : SchedulerState :=
  run demoInit [.submit demoTask "C", .cancel "T1"]

/-- Master state while `T1` is in flight on agent `A`, whose stream is
registered. -/
def demoMaster : MasterState :=
  { agentStreams := ["A"], sched := demoInFlight }

/-- WebSocket server with the single client `C`, which owns the in-flight
task `T1`. -/
def demoWSServer : WSServer :=
  { clients := ["C"], sched := demoInFlight }

/-! ## Helper lemmas -/

/-- On a scheduler with global ceiling 0 and empty task table, every single
operation is a no-op: submissions are rejected at admission, cancels and
terminal deliveries find no task record. -/
theorem applyOp_fixes_empty (agents : AgentMap) (op : SchedOp) :
    applyOp (newScheduler agents 0) op = newScheduler agents 0 := by
  cases op with
  | submit task clientID => simp [applyOp, submitTask, newScheduler]
  | cancel taskID => simp [applyOp, cancelTask, assocGet, newScheduler]
  | deliver output =>
    cases output with
    | none => rfl
    | some o =>
      simp [applyOp, handleTaskOutput, completeTask, assocGet, newScheduler]

/-- Iterated form of `applyOp_fixes_empty`. -/
theorem run_fixes_empty (agents : AgentMap) (ops : List SchedOp) :
    run (newScheduler agents 0) ops = newScheduler agents 0 := by
  induction ops with
  | nil => rfl
  | cons op ops ih =>
    show run (applyOp (newScheduler agents 0) op) ops = newScheduler agents 0
    rw [applyOp_fixes_empty]
    exact ih

/-- The frames `completeTask` hands to a handler: either none, or exactly
one synthetic terminal frame, the latter only when a handler is registered
under the task id. -/
theorem completeTask_frames (s : SchedulerState) (tid : String)
    (st : TaskStatus) :
    (completeTask s tid st).2 = [] ∨
    ((completeTask s tid st).2 =
       [{ taskId := tid, outputLine := "", errorMessage := "",
          status := st }] ∧
     s.outputHandlers.contains tid = true) := by
  unfold completeTask
  cases h : assocGet s.tasks tid with
  | none => exact .inl rfl
  | some ti =>
    simp only
    split
    · rename_i hcond
      have hc2 := hcond
      simp only [Bool.and_eq_true] at hc2
      exact .inr ⟨rfl, hc2.1⟩
    · exact .inl rfl

/-- The frame trace of `HandleTaskOutput` splits into the forwarded part
and the terminal part. -/
theorem handleTaskOutput_some_frames (s : SchedulerState) (o : TaskOutput) :
    (handleTaskOutput s (some o)).2 =
      (if filterOutput (some o) then [] else forwardOutput s o) ++
      (if o.status = TaskStatus.completed then
         completeTask s o.taskId .completed
       else if o.status = TaskStatus.failed then
         completeTask s o.taskId .failed
       else if o.status = TaskStatus.cancelled then
         completeTask s o.taskId .cancelled
       else (s, [])).2 := by
  unfold handleTaskOutput
  cases hf : filterOutput (some o) <;> simp [hf]

/-- The terminal part of the `HandleTaskOutput` trace: empty, or one
synthetic frame with empty output line, the latter only when a handler is
registered under the task id. -/
theorem terminal_frames_cases (s : SchedulerState) (o : TaskOutput) :
    (if o.status = TaskStatus.completed then
       completeTask s o.taskId .completed
     else if o.status = TaskStatus.failed then
       completeTask s o.taskId .failed
     else if o.status = TaskStatus.cancelled then
       completeTask s o.taskId .cancelled
     else (s, [])).2 = [] ∨
    (∃ st,
      (if o.status = TaskStatus.completed then
         completeTask s o.taskId .completed
       else if o.status = TaskStatus.failed then
         completeTask s o.taskId .failed
       else if o.status = TaskStatus.cancelled then
         completeTask s o.taskId .cancelled
       else (s, [])).2 =
        [{ taskId := o.taskId, outputLine := "", errorMessage := "",
           status := st }] ∧
      s.outputHandlers.contains o.taskId = true) := by
  split
  · rcases completeTask_frames s o.taskId .completed with h | ⟨h, hc⟩
    · exact .inl h
    · exact .inr ⟨.completed, h, hc⟩
  · split
    · rcases completeTask_frames s o.taskId .failed with h | ⟨h, hc⟩
      · exact .inl h
      · exact .inr ⟨.failed, h, hc⟩
    · split
      · rcases completeTask_frames s o.taskId .cancelled with h | ⟨h, hc⟩
        · exact .inl h
        · exact .inr ⟨.cancelled, h, hc⟩
      · exact .inl rfl

/-! ## Claims -/

/-- C1: refuted on the code (code bug).  With task `T1` in flight and its
handler registered, the probe delivers one terminal `TaskOutput` with
status completed; `HandleTaskOutput` forwards that frame to the handler
and `completeTask` then hands the same handler a second synthetic terminal
frame with the same status, so the handler observes two terminal frames
for `T1` with status completed instead of exactly one. -/
theorem probe_terminal_output_duplicates_terminal_frame :
    ((handleTaskOutput demoInFlight (some demoCompletedFrame)).2).map
        TaskOutput.taskId = ["T1", "T1"] ∧
    ((handleTaskOutput demoInFlight (some demoCompletedFrame)).2).map
        TaskOutput.status = [.completed, .completed] := by decide

/-- C2 counterexample: `UpdateHeartbeat` on the offline agent `A` flips
its status to online, refuting the claim that a heartbeat never brings an
offline probe back online. -/
theorem heartbeat_flips_offline_probe_cex :
    demoOfflineAgent.status = .offline ∧
    (match updateHeartbeat [("A", demoOfflineAgent)] "A" 7 0 with
     | .ok m => (assocGet m "A").map Agent.status
     | .error _ => none) = some .online := by decide

/-- C2 amended: `UpdateHeartbeat` on a registered probe refreshes the
heartbeat time stamp and the reported task count and unconditionally sets
the status to online — in particular it flips an offline probe back to
online without any new stream registration. -/
theorem updateHeartbeat_always_sets_online (agents : AgentMap)
    (agentID : String) (now : Nat) (n : Int) (a : Agent)
    (h : assocGet agents agentID = some a) :
    updateHeartbeat agents agentID now n =
      .ok (assocSet agents agentID
        { a with lastHeartbeat := now, currentTasks := n,
                 status := .online }) := by
  simp [updateHeartbeat, h]

/-- Witness for `updateHeartbeat_always_sets_online` at the offline agent
`A`. -/
theorem updateHeartbeat_always_sets_online_witness :
    updateHeartbeat [("A", demoOfflineAgent)] "A" 7 3 =
      .ok (assocSet [("A", demoOfflineAgent)] "A"
        { demoOfflineAgent with lastHeartbeat := 7, currentTasks := 3,
                                status := .online }) :=
  updateHeartbeat_always_sets_online [("A", demoOfflineAgent)] "A" 7 3
    demoOfflineAgent (by decide)

/-- C3 counterexample: when the stream of agent `A` disconnects while `T1`
is in flight, the cleanup leaves the task record running, the handler
registered and the counters untouched (and emits no frame at all, by the
shape of the cleanup, which only unregisters the stream and marks the
agent offline) — no task is terminated with status failed and no
"probe disconnected" frame reaches the handler. -/
theorem probe_disconnect_leaves_task_in_flight_cex :
    (agentStreamCleanup demoMaster "A" true).sched.tasks =
      demoInFlight.tasks ∧
    (assocGet (agentStreamCleanup demoMaster "A" true).sched.tasks
        "T1").map TaskInfo.status = some .running ∧
    (agentStreamCleanup demoMaster "A" true).sched.outputHandlers =
      ["T1"] ∧
    (agentStreamCleanup demoMaster "A" true).sched.currentTasks = 1 ∧
    (assocGet (agentStreamCleanup demoMaster "A" true).sched.agents
        "A").map Agent.status = some .offline := by decide

/-- C3 amended: when the stream of a registered probe disconnects, the
master only unregisters the stream and marks the probe offline; every
dispatched task stays in flight — task records, output handlers and the
in-flight counter are unchanged, no failed frame is delivered and nothing
is rescheduled. -/
theorem agent_stream_cleanup_only_marks_offline (m : MasterState)
    (agentID : String) (h : agentID ≠ "") :
    (agentStreamCleanup m agentID true).sched.tasks = m.sched.tasks ∧
    (agentStreamCleanup m agentID true).sched.outputHandlers =
      m.sched.outputHandlers ∧
    (agentStreamCleanup m agentID true).sched.currentTasks =
      m.sched.currentTasks ∧
    (agentStreamCleanup m agentID true).sched.agents =
      (markAgentOffline m.sched.agents agentID).1 ∧
    (agentStreamCleanup m agentID true).agentStreams =
      unregisterAgentStream m.agentStreams agentID := by
  simp [agentStreamCleanup, h]

/-- Witness for `agent_stream_cleanup_only_marks_offline` at the concrete
disconnect scenario. -/
theorem agent_stream_cleanup_only_marks_offline_witness :
    (agentStreamCleanup demoMaster "A" true).sched.tasks =
      demoMaster.sched.tasks ∧
    (agentStreamCleanup demoMaster "A" true).sched.outputHandlers =
      demoMaster.sched.outputHandlers ∧
    (agentStreamCleanup demoMaster "A" true).sched.currentTasks =
      demoMaster.sched.currentTasks ∧
    (agentStreamCleanup demoMaster "A" true).sched.agents =
      (markAgentOffline demoMaster.sched.agents "A").1 ∧
    (agentStreamCleanup demoMaster "A" true).agentStreams =
      unregisterAgentStream demoMaster.agentStreams "A" :=
  agent_stream_cleanup_only_marks_offline demoMaster "A" (by decide)

/-- C4: refuted on the code (code bug).  After `T1` was submitted and
cancelled once, the record is still in the task table (the code never
deletes it), so a second `CancelTask` returns success instead of a
not-found error, runs the terminal path again and decrements the global
in-flight counter from 0 to -1. -/
theorem second_cancel_succeeds_and_decrements_again :
    demoAfterCancel.currentTasks = 0 ∧
    cancelSucceeded (cancelTask demoAfterCancel "T1") = true ∧
    cancelledCurrentTasks (cancelTask demoAfterCancel "T1") =
      some (-1) := by decide

/-- C5: refuted on the code (code bug).  From a fresh scheduler, the
operation sequence submit `T1`, deliver a terminal completed frame for
`T1`, deliver the same terminal frame again reaches a state whose global
in-flight counter is -1: completed task records are never removed from the
task table, so the unguarded decrement in `completeTask` runs twice. -/
theorem inflight_counter_reaches_negative_one :
    (run demoInit [.submit demoTask "C",
        .deliver (some demoCompletedFrame),
        .deliver (some demoCompletedFrame)]).currentTasks = -1 := by decide

/-- C6 counterexample: client `C` owns the in-flight task `T1`; after
`UnregisterClient "C"` the scheduler is byte-for-byte unchanged — `T1` is
still running, its handler is still registered, and no cancel was issued. -/
theorem client_disconnect_cancels_nothing_cex :
    (assocGet demoWSServer.sched.tasks "T1").map TaskInfo.clientId =
      some "C" ∧
    (unregisterClient demoWSServer "C").sched = demoInFlight ∧
    (assocGet (unregisterClient demoWSServer "C").sched.tasks "T1").map
        TaskInfo.status = some .running ∧
    (unregisterClient demoWSServer "C").sched.outputHandlers = ["T1"] ∧
    (unregisterClient demoWSServer "C").clients = [] := by decide

/-- C6 amended: when a client session disconnects, the server only removes
the client from its registry; no output handler is unregistered, no cancel
is issued to the scheduler, and the outstanding tasks of the client are
untouched. -/
theorem unregisterClient_leaves_scheduler_untouched (s : WSServer)
    (clientID : String) :
    (unregisterClient s clientID).sched = s.sched ∧
    (unregisterClient s clientID).clients =
      s.clients.filter (· ≠ clientID) :=
  ⟨rfl, rfl⟩

/-- C7: confirmed.  With `global_max = 0`, every state reachable by any
sequence of submit, cancel and deliver operations keeps an empty task
table and empty handler table, and every submission — whatever the target
agent or task — is rejected with the system-busy admission error. -/
theorem global_max_zero_rejects_every_submit (agents : AgentMap)
    (ops : List SchedOp) (task : Task) (clientID : String) :
    submitTask (run (newScheduler agents 0) ops) task clientID =
      .error (.systemBusy 0 0) ∧
    (run (newScheduler agents 0) ops).tasks = [] ∧
    (run (newScheduler agents 0) ops).outputHandlers = [] := by
  rw [run_fixes_empty]
  refine ⟨?_, rfl, rfl⟩
  simp [submitTask, newScheduler]

/-- C8: the IPv4 and unmasked behaviour match the claim, but for
`"2001:db8::1"` the code pads the kept final group to four hex digits and
returns `"2001:****:****:****:****:****:****:0001"`, not the claimed
`"...:1"` (which is also the example given in the doc comment of
`maskIPv6Address` in the source — a code bug). -/
theorem ipv6_mask_pads_final_group :
    maskIP "203.0.113.45" false = "203.0.113.45" ∧
    maskIP "203.0.113.45" true = "203.0.*.*" ∧
    maskIP "2001:db8::1" true =
      "2001:****:****:****:****:****:****:0001" ∧
    maskIP "2001:db8::1" true ≠
      "2001:****:****:****:****:****:****:1" ∧
    (∀ ip : String, maskIP ip false = ip) :=
  ⟨by decide, by decide, by decide, by decide, fun _ => rfl⟩

/-- C9: confirmed.  A `TaskOutput` delivered to the scheduler is forwarded
to the handler registered under its task id exactly when its line contains
none of the denylist substrings and such a handler exists; a nil output is
never forwarded.  (The terminal path can add a synthetic frame, but never
resurrects a suppressed probe frame.) -/
theorem output_suppressed_iff_denylisted (s : SchedulerState)
    (o : TaskOutput) :
    (o ∈ (handleTaskOutput s (some o)).2 ↔
      specDenylisted o.outputLine = false ∧
      s.outputHandlers.contains o.taskId = true) ∧
    (handleTaskOutput s none).2 = [] := by
  refine ⟨?_, rfl⟩
  rw [handleTaskOutput_some_frames]
  have hfo : filterOutput (some o) = specDenylisted o.outputLine := rfl
  rcases terminal_frames_cases s o with hrest | ⟨st, hrest, hc⟩
  · rw [hrest, List.append_nil]
    cases hd : specDenylisted o.outputLine with
    | true =>
      rw [hfo, hd]
      simp
    | false =>
      rw [hfo, hd]
      simp only [Bool.false_eq_true, if_false]
      unfold forwardOutput
      cases hc2 : s.outputHandlers.contains o.taskId with
      | true => simp [hc2]
      | false => simp [hc2]
  · cases hd : specDenylisted o.outputLine with
    | true =>
      rw [hfo, hd, hrest]
      simp only [if_true, List.nil_append]
      constructor
      · intro hmem
        have heq := List.mem_singleton.mp hmem
        have hline : o.outputLine = "" := by rw [heq]
        rw [hline] at hd
        exact absurd hd (by decide)
      · rintro ⟨h1, _⟩
        exact absurd h1 (by decide)
    | false =>
      rw [hfo, hd, hrest]
      simp only [Bool.false_eq_true, if_false]
      unfold forwardOutput
      rw [hc]
      simp [hd, hc]

/-- C10 counterexample: `"zz:zz:zz:zz:zz:zz:zz:zz"` is neither a
dotted-quad nor expandable to eight hex groups (the groups are not hex
digits), yet masking changes it — the code checks only group lengths,
never hex digits. -/
theorem nonhex_groups_still_masked_cex :
    specFourDotParts "zz:zz:zz:zz:zz:zz:zz:zz" = false ∧
    specIPv6HexExpandable "zz:zz:zz:zz:zz:zz:zz:zz" = false ∧
    maskIP "zz:zz:zz:zz:zz:zz:zz:zz" true =
      "00zz:****:****:****:****:****:****:00zz" ∧
    maskIP "zz:zz:zz:zz:zz:zz:zz:zz" true ≠
      "zz:zz:zz:zz:zz:zz:zz:zz" := by decide

/-- C10 amended: with masking on, any address string whose expansion fails
in the code — it contains a colon but `expandIPv6` rejects it, or it
contains no colon and does not split into exactly four dot-separated parts
— is returned completely unchanged (the empty string included); hex digits
are not validated, so colon strings with eight groups of 1-4 arbitrary
characters are still masked. -/
theorem mask_unchanged_when_expansion_fails (s : String)
    (h1 : goContains s ":" = true → expandIPv6 s = "")
    (h2 : goContains s ":" = false → (goSplit s ".").length ≠ 4) :
    maskIP s true = s := by
  unfold maskIP
  by_cases he : s = ""
  · subst he; rfl
  · have he2 : (s == "") = false := by simp [he]
    cases hco : goContains s ":" with
    | true =>
      have hex : expandIPv6 s = "" := h1 hco
      simp [he2, hco, maskIPv6Address, hex]
    | false =>
      have hlen : (goSplit s ".").length ≠ 4 := h2 hco
      simp only [he2, hco, Bool.not_true, Bool.false_or,
        Bool.false_eq_true, if_false]
      split
      · rename_i hsp
        exact absurd (by rw [hsp]; rfl) hlen
      · rfl

/-- Witness for `mask_unchanged_when_expansion_fails` at the malformed
address `"1.2.3"`. -/
theorem mask_unchanged_when_expansion_fails_witness :
    maskIP "1.2.3" true = "1.2.3" :=
  mask_unchanged_when_expansion_fails "1.2.3" (by decide) (by decide)

end LookingGlass
